import Mathlib

/-!
Verification development for the foreign-callback registration and
adaptation layer of the `lol-html` C API (`c-api/src/rewriter_builder.rs`).

The Rust source is embedded shallowly:

* raw foreign function pointers are modelled by opaque numeric
  identifiers (`FnPtr`), raw `*mut c_void` context pointers by opaque
  numeric values (`UserData`);
* the closure produced by the `wrap_handler!` macro captures exactly a
  function pointer and a context-pointer value, so it is represented in
  defunctionalized form as the structure `WrappedHandler` holding those
  two captured values;
* the mutable builder is embedded in state-passing style: every C-API
  entry point takes the builder state and returns the updated state
  (together with the status code where the C function returns one);
* the event object types (`Doctype`, `Comment`, `TextChunk`, `Element`)
  are opaque to this layer and are modelled by numeric states; a foreign
  function's observable behaviour is an abstract environment
  `ffi : FnPtr → Nat → UserData → Nat` giving the mutation it performs
  on the event object it is handed.

Collaborators that the repository uses but whose code is not under
`src/` (the `to_str!` byte-buffer decoding helper, the external
`Selector` parser, the engine-side `DocumentContentHandlers` /
`ElementContentHandlers` types and their invocation discipline) are
modelled from the specification; each such definition carries a doc
comment starting with `Modelled from the spec:`.
-/

/-- Opaque identifier standing for a foreign (extern "C") function
pointer. The layer never calls through it except in the produced
closures, so only its identity matters. -/
abbrev FnPtr := Nat

/-- Opaque value standing for a `*mut c_void` context pointer. The layer
never dereferences it, only stores and forwards it. -/
abbrev UserData := Nat

/-- Embedding of `struct ExternHandler<T>`: one optional foreign callback
together with its opaque context pointer. The Rust type parameter `T`
(the exact extern fn signature) is erased because function pointers are
opaque identifiers here. -/
structure ExternHandler where
  handler : Option FnPtr
  user_data : UserData
deriving DecidableEq, Repr

/-- Embedding of `ExternHandler::new`. -/
def ExternHandler.new (handler : Option FnPtr) (user_data : UserData) :
    ExternHandler :=
  { handler := handler, user_data := user_data }

/-- Defunctionalized form of the closure built by the `wrap_handler!`
macro: `move |arg: &mut _| unsafe { handler(arg, user_data) }`. The
closure state is exactly the captured function pointer and the captured
context-pointer value (captured by value, from a local variable, not by
reference into the builder). -/
structure WrappedHandler where
  fn : FnPtr
  user_data : UserData
deriving DecidableEq, Repr

/-- Embedding of the `wrap_handler!` macro body: read the context pointer
into a local (`let user_data = $user_data;`) and capture it together with
the function pointer. -/
def wrap_handler (handler : FnPtr) (user_data : UserData) : WrappedHandler :=
  { fn := handler, user_data := user_data }

/-- Modelled from the spec: the engine-side `DocumentContentHandlers`
bundle (its definition lives outside `src/`). It exposes up to three
invocable closures, one per document-scope event kind; `default()`
leaves every slot empty, and the builder methods `.doctype(...)`,
`.comments(...)`, `.text(...)` fill one slot each. -/
structure DocumentContentHandlers where
  doctype : Option WrappedHandler := none
  comments : Option WrappedHandler := none
  text : Option WrappedHandler := none
deriving DecidableEq, Repr

/-- Modelled from the spec: the engine-side `ElementContentHandlers`
bundle (outside `src/`), with slots for element, comment and text
events scoped to one selector. -/
structure ElementContentHandlers where
  element : Option WrappedHandler := none
  comments : Option WrappedHandler := none
  text : Option WrappedHandler := none
deriving DecidableEq, Repr

/-- Embedding of
`ExternDocumentContentHandlers` (three `ExternHandler` fields). -/
structure ExternDocumentContentHandlers where
  doctype : ExternHandler
  comments : ExternHandler
  text : ExternHandler
deriving DecidableEq, Repr

/-- Embedding of
`ExternDocumentContentHandlers::as_safe_document_content_handlers`:
start from the default (all-empty) bundle and, for each slot whose
function pointer is present, install the closure produced by
`wrap_handler!` from that slot's function pointer and that slot's
context pointer. -/
def ExternDocumentContentHandlers.as_safe_document_content_handlers
    (self : ExternDocumentContentHandlers) : DocumentContentHandlers :=
  let handlers : DocumentContentHandlers := {}
  let handlers := match self.doctype.handler with
    | some handler => { handlers with
        doctype := some (wrap_handler handler self.doctype.user_data) }
    | none => handlers
  let handlers := match self.comments.handler with
    | some handler => { handlers with
        comments := some (wrap_handler handler self.comments.user_data) }
    | none => handlers
  let handlers := match self.text.handler with
    | some handler => { handlers with
        text := some (wrap_handler handler self.text.user_data) }
    | none => handlers
  handlers

/-- Embedding of `ExternElementContentHandlers`. -/
structure ExternElementContentHandlers where
  element : ExternHandler
  comments : ExternHandler
  text : ExternHandler
deriving DecidableEq, Repr

/-- Embedding of
`ExternElementContentHandlers::as_safe_element_content_handlers`. -/
def ExternElementContentHandlers.as_safe_element_content_handlers
    (self : ExternElementContentHandlers) : ElementContentHandlers :=
  let handlers : ElementContentHandlers := {}
  let handlers := match self.element.handler with
    | some handler => { handlers with
        element := some (wrap_handler handler self.element.user_data) }
    | none => handlers
  let handlers := match self.comments.handler with
    | some handler => { handlers with
        comments := some (wrap_handler handler self.comments.user_data) }
    | none => handlers
  let handlers := match self.text.handler with
    | some handler => { handlers with
        text := some (wrap_handler handler self.text.user_data) }
    | none => handlers
  handlers

/-- Modelled from the spec: the external `Selector` collaborator's parsed
form (`selectors_vm` lives outside `src/`). Immutable once parsed; we
retain the source text of the parsed expression. -/
structure Selector where
  source : String
deriving DecidableEq, Repr

/-- Modelled from the spec: the external selector grammar
(`str::parse::<Selector>`). The spec fixes the grammar only by example
(`"a"`, `"div"`, `"p"` parse; `"["` fails), so selector validity is
modelled as: the text is nonempty and consists of ASCII letters only.
Parse failure yields `none` (the `SelectorError`). -/
def Selector.parse (s : String) : Option Selector :=
  if s.data ≠ [] ∧ s.data.all Char.isAlpha then some { source := s } else none

/-- Modelled from the spec: the `to_str!` helper (outside `src/`), which
reinterprets the `(pointer, length)` byte buffer as text in the fixed
encoding. The buffer is modelled as the list of its byte values; it
decodes exactly when every byte is an ASCII code point, and the decoded
text is the corresponding character string. A non-decodable buffer
yields `none` (the encoding error rejected by `unwrap_or_ret_err_code!`). -/
def to_str (bytes : List Nat) : Option String :=
  if bytes.all (fun b => b < 128) then
    some (String.mk (bytes.map (fun b => Char.ofNat b)))
  else
    none

/-- Embedding of `struct SafeContentHandlers`: the finalized, engine-consumable
collection. The Rust borrows (`&'b Selector`) are values here because the
embedding is purely functional. -/
structure SafeContentHandlers where
  document : List DocumentContentHandlers
  element : List (Selector × ElementContentHandlers)
deriving DecidableEq, Repr

/-- Embedding of `struct HtmlRewriterBuilder` (two `Vec` fields). -/
structure HtmlRewriterBuilder where
  document_content_handlers : List ExternDocumentContentHandlers
  element_content_handlers : List (Selector × ExternElementContentHandlers)
deriving DecidableEq, Repr

/-- Embedding of the derived `Default` for `HtmlRewriterBuilder`: both
vectors empty. -/
def HtmlRewriterBuilder.default : HtmlRewriterBuilder :=
  { document_content_handlers := [], element_content_handlers := [] }

/-- Embedding of `HtmlRewriterBuilder::get_safe_handlers` (`&self`): map
each accumulated extern set through the adaptation layer, preserving
order; element entries keep their selector paired with the adapted
bundle. -/
def HtmlRewriterBuilder.get_safe_handlers (self : HtmlRewriterBuilder) :
    SafeContentHandlers :=
  { document := self.document_content_handlers.map
      (fun h => h.as_safe_document_content_handlers)
    element := self.element_content_handlers.map
      (fun p => (p.1, p.2.as_safe_element_content_handlers)) }

/-- Embedding of `cool_thing_rewriter_builder_new`: allocate a fresh
default builder (the returned opaque pointer is the state itself in this
embedding). -/
def cool_thing_rewriter_builder_new : HtmlRewriterBuilder :=
  HtmlRewriterBuilder.default

/-- Embedding of `cool_thing_rewriter_builder_add_document_content_handlers`
(state-passing: the C function mutates `*builder` and returns `void`, so
here it returns the updated builder). It builds one
`ExternDocumentContentHandlers` from the three optional
(function pointer, context pointer) pairs and pushes it. -/
def cool_thing_rewriter_builder_add_document_content_handlers
    (builder : HtmlRewriterBuilder)
    (doctype_handler : Option FnPtr) (doctype_handler_user_data : UserData)
    (comments_handler : Option FnPtr) (comments_handler_user_data : UserData)
    (text_handler : Option FnPtr) (text_handler_user_data : UserData) :
    HtmlRewriterBuilder :=
  let handlers : ExternDocumentContentHandlers :=
    { doctype := ExternHandler.new doctype_handler doctype_handler_user_data
      comments := ExternHandler.new comments_handler comments_handler_user_data
      text := ExternHandler.new text_handler text_handler_user_data }
  { builder with
      document_content_handlers :=
        builder.document_content_handlers ++ [handlers] }

/-- Embedding of `cool_thing_rewriter_builder_add_element_content_handlers`
(state-passing: returns the `c_int` status together with the updated
builder). It first decodes the selector buffer (`to_str!`), then parses
the decoded text (`selector.parse::<Selector>()`); either failure makes
`unwrap_or_ret_err_code!` return the error status `-1` with the builder
untouched. On success it pushes one (Selector, ExternElementContentHandlers)
pair and returns `0`. -/
def cool_thing_rewriter_builder_add_element_content_handlers
    (builder : HtmlRewriterBuilder)
    (selector_buf : List Nat)
    (element_handler : Option FnPtr) (element_handler_user_data : UserData)
    (comments_handler : Option FnPtr) (comments_handler_user_data : UserData)
    (text_handler : Option FnPtr) (text_handler_user_data : UserData) :
    Int × HtmlRewriterBuilder :=
  match to_str selector_buf with
  | none => (-1, builder)
  | some s =>
    match Selector.parse s with
    | none => (-1, builder)
    | some selector =>
      let handlers : ExternElementContentHandlers :=
        { element := ExternHandler.new element_handler element_handler_user_data
          comments := ExternHandler.new comments_handler comments_handler_user_data
          text := ExternHandler.new text_handler text_handler_user_data }
      (0, { builder with
              element_content_handlers :=
                builder.element_content_handlers ++ [(selector, handlers)] })

/-- Record of one call made through the foreign boundary: which function
pointer was invoked, with which event-object state and which context
pointer. -/
structure Call where
  fn : FnPtr
  arg : Nat
  user_data : UserData
deriving DecidableEq, Repr

/-- Modelled from the spec: the engine's invocation of one bundle slot
(the streaming engine and its dispatch loop live outside `src/`). An
absent slot is skipped (a no-op on the event, no foreign call). A
present slot calls its captured function pointer with the current event
object and its captured context pointer; the foreign function's
observable effect is given by the abstract environment `ffi`, and its
result (the mutated event object) together with the trace of foreign
calls is handed back to the engine unchanged. -/
def invokeSlot (ffi : FnPtr → Nat → UserData → Nat)
    (slot : Option WrappedHandler) (ev : Nat) : Nat × List Call :=
  match slot with
  | none => (ev, [])
  | some w => (ffi w.fn ev w.user_data, [{ fn := w.fn, arg := ev, user_data := w.user_data }])

/-- A registration command, abstracting one C-API registration call with
its full argument vector. Interpreted by `applyReg` through the embedded
C-API entry points. -/
inductive Reg where
  | doc (dh : Option FnPtr) (du : UserData) (ch : Option FnPtr) (cu : UserData)
        (th : Option FnPtr) (tu : UserData)
  | elem (buf : List Nat) (eh : Option FnPtr) (eu : UserData)
         (ch : Option FnPtr) (cu : UserData) (th : Option FnPtr) (tu : UserData)
deriving DecidableEq, Repr

/-- Interpretation of one registration command on a builder state via the
embedded C-API functions (the element variant keeps only the updated
state, as the C caller would when ignoring the status). -/
def applyReg (b : HtmlRewriterBuilder) : Reg → HtmlRewriterBuilder
  | .doc dh du ch cu th tu =>
      cool_thing_rewriter_builder_add_document_content_handlers b dh du ch cu th tu
  | .elem buf eh eu ch cu th tu =>
      (cool_thing_rewriter_builder_add_element_content_handlers
        b buf eh eu ch cu th tu).2

/-- Interpretation of a sequence of registration calls, in call order. -/
def applyRegs (b : HtmlRewriterBuilder) (rs : List Reg) : HtmlRewriterBuilder :=
  rs.foldl applyReg b

/-- The extern document handler set that a document registration command
constructs (`none` for element commands). -/
def regDocSet : Reg → Option ExternDocumentContentHandlers
  | .doc dh du ch cu th tu =>
      some { doctype := ExternHandler.new dh du
             comments := ExternHandler.new ch cu
             text := ExternHandler.new th tu }
  | .elem .. => none

/-- The (selector, extern element handler set) entry that an element
registration command appends when its selector buffer decodes and
parses (`none` for document commands and for rejected selectors). -/
def regElemEntry : Reg → Option (Selector × ExternElementContentHandlers)
  | .doc .. => none
  | .elem buf eh eu ch cu th tu =>
      ((to_str buf).bind Selector.parse).map
        (fun sel =>
          (sel, { element := ExternHandler.new eh eu
                  comments := ExternHandler.new ch cu
                  text := ExternHandler.new th tu }))

/-- Whether a registration command is a document-handler registration. -/
def Reg.isDoc : Reg → Bool
  | .doc .. => true
  | .elem .. => false

/-- State-passing embedding of the finalization step: the engine's
construction step calls `HtmlRewriterBuilder::get_safe_handlers`, which
takes `&self` (a shared borrow), so it returns the produced collection
together with the unchanged builder state. -/
def builder_finalize (b : HtmlRewriterBuilder) :
    SafeContentHandlers × HtmlRewriterBuilder :=
  (b.get_safe_handlers, b)

/-- The observable behaviour of one document bundle under a foreign
environment `ffi` on one event-object state: the result and foreign-call
trace of invoking each of its three slots. -/
def docBundleBehavior (ffi : FnPtr → Nat → UserData → Nat)
    (h : DocumentContentHandlers) (ev : Nat) :
    (Nat × List Call) × (Nat × List Call) × (Nat × List Call) :=
  (invokeSlot ffi h.doctype ev, invokeSlot ffi h.comments ev,
    invokeSlot ffi h.text ev)

/-- The observable behaviour of one element bundle under a foreign
environment `ffi` on one event-object state. -/
def elemBundleBehavior (ffi : FnPtr → Nat → UserData → Nat)
    (h : ElementContentHandlers) (ev : Nat) :
    (Nat × List Call) × (Nat × List Call) × (Nat × List Call) :=
  (invokeSlot ffi h.element ev, invokeSlot ffi h.comments ev,
    invokeSlot ffi h.text ev)

/-- Observational equivalence of two foreign handler slots: same function
pointer, and same context pointer whenever the function pointer is
present (context pointers alongside absent function pointers are
unconstrained). -/
def ExternHandler.obsEq (a b : ExternHandler) : Prop :=
  a.handler = b.handler ∧ (a.handler.isSome = true → a.user_data = b.user_data)

/-- Observational equivalence of two registration commands: same shape,
same selector buffer, same function pointers, and equal context pointers
wherever the accompanying function pointer is present. -/
def Reg.obsEq : Reg → Reg → Prop
  | .doc dh1 du1 ch1 cu1 th1 tu1, .doc dh2 du2 ch2 cu2 th2 tu2 =>
      (ExternHandler.new dh1 du1).obsEq (ExternHandler.new dh2 du2) ∧
      (ExternHandler.new ch1 cu1).obsEq (ExternHandler.new ch2 cu2) ∧
      (ExternHandler.new th1 tu1).obsEq (ExternHandler.new th2 tu2)
  | .elem buf1 eh1 eu1 ch1 cu1 th1 tu1, .elem buf2 eh2 eu2 ch2 cu2 th2 tu2 =>
      buf1 = buf2 ∧
      (ExternHandler.new eh1 eu1).obsEq (ExternHandler.new eh2 eu2) ∧
      (ExternHandler.new ch1 cu1).obsEq (ExternHandler.new ch2 cu2) ∧
      (ExternHandler.new th1 tu1).obsEq (ExternHandler.new th2 tu2)
  | _, _ => False

theorem as_safe_doc_doctype (d : ExternDocumentContentHandlers) :
    d.as_safe_document_content_handlers.doctype =
      d.doctype.handler.map (fun f => wrap_handler f d.doctype.user_data) := by
  cases hd : d.doctype.handler <;> cases hc : d.comments.handler <;>
    cases ht : d.text.handler <;>
    simp [ExternDocumentContentHandlers.as_safe_document_content_handlers,
      hd, hc, ht]

theorem as_safe_doc_comments (d : ExternDocumentContentHandlers) :
    d.as_safe_document_content_handlers.comments =
      d.comments.handler.map (fun f => wrap_handler f d.comments.user_data) := by
  cases hd : d.doctype.handler <;> cases hc : d.comments.handler <;>
    cases ht : d.text.handler <;>
    simp [ExternDocumentContentHandlers.as_safe_document_content_handlers,
      hd, hc, ht]

theorem as_safe_doc_text (d : ExternDocumentContentHandlers) :
    d.as_safe_document_content_handlers.text =
      d.text.handler.map (fun f => wrap_handler f d.text.user_data) := by
  cases hd : d.doctype.handler <;> cases hc : d.comments.handler <;>
    cases ht : d.text.handler <;>
    simp [ExternDocumentContentHandlers.as_safe_document_content_handlers,
      hd, hc, ht]

theorem as_safe_elem_element (e : ExternElementContentHandlers) :
    e.as_safe_element_content_handlers.element =
      e.element.handler.map (fun f => wrap_handler f e.element.user_data) := by
  cases he : e.element.handler <;> cases hc : e.comments.handler <;>
    cases ht : e.text.handler <;>
    simp [ExternElementContentHandlers.as_safe_element_content_handlers,
      he, hc, ht]

theorem as_safe_elem_comments (e : ExternElementContentHandlers) :
    e.as_safe_element_content_handlers.comments =
      e.comments.handler.map (fun f => wrap_handler f e.comments.user_data) := by
  cases he : e.element.handler <;> cases hc : e.comments.handler <;>
    cases ht : e.text.handler <;>
    simp [ExternElementContentHandlers.as_safe_element_content_handlers,
      he, hc, ht]

theorem as_safe_elem_text (e : ExternElementContentHandlers) :
    e.as_safe_element_content_handlers.text =
      e.text.handler.map (fun f => wrap_handler f e.text.user_data) := by
  cases he : e.element.handler <;> cases hc : e.comments.handler <;>
    cases ht : e.text.handler <;>
    simp [ExternElementContentHandlers.as_safe_element_content_handlers,
      he, hc, ht]

theorem add_element_spec (b : HtmlRewriterBuilder) (buf : List Nat)
    (eh : Option FnPtr) (eu : UserData) (ch : Option FnPtr) (cu : UserData)
    (th : Option FnPtr) (tu : UserData) :
    cool_thing_rewriter_builder_add_element_content_handlers
        b buf eh eu ch cu th tu =
      match (to_str buf).bind Selector.parse with
      | some sel =>
          (0, { b with
                  element_content_handlers :=
                    b.element_content_handlers ++
                      [(sel, { element := ExternHandler.new eh eu
                               comments := ExternHandler.new ch cu
                               text := ExternHandler.new th tu })] })
      | none => (-1, b) := by
  unfold cool_thing_rewriter_builder_add_element_content_handlers
  cases hs : to_str buf with
  | none => simp [hs]
  | some s =>
    cases hp : Selector.parse s with
    | none => simp [hs, hp]
    | some sel => simp [hs, hp]

theorem applyReg_state (b : HtmlRewriterBuilder) (r : Reg) :
    (applyReg b r).document_content_handlers =
      b.document_content_handlers ++ (regDocSet r).toList ∧
    (applyReg b r).element_content_handlers =
      b.element_content_handlers ++ (regElemEntry r).toList := by
  cases r with
  | doc dh du ch cu th tu =>
    simp [applyReg, regDocSet, regElemEntry,
      cool_thing_rewriter_builder_add_document_content_handlers]
  | elem buf eh eu ch cu th tu =>
    rw [applyReg, add_element_spec]
    cases hps : (to_str buf).bind Selector.parse <;>
      simp [regDocSet, regElemEntry, hps]

theorem applyRegs_state (b : HtmlRewriterBuilder) (rs : List Reg) :
    (applyRegs b rs).document_content_handlers =
      b.document_content_handlers ++ rs.filterMap regDocSet ∧
    (applyRegs b rs).element_content_handlers =
      b.element_content_handlers ++ rs.filterMap regElemEntry := by
  induction rs generalizing b with
  | nil => simp [applyRegs]
  | cons r rs ih =>
    have hstep := applyReg_state b r
    have htail := ih (applyReg b r)
    have h1 : applyRegs b (r :: rs) = applyRegs (applyReg b r) rs := rfl
    rw [h1]
    constructor
    · rw [htail.1, hstep.1, List.filterMap_cons]
      cases regDocSet r <;> simp
    · rw [htail.2, hstep.2, List.filterMap_cons]
      cases regElemEntry r <;> simp

theorem filterMap_length_isDoc (rs : List Reg) :
    (rs.filterMap regDocSet).length = (rs.filter Reg.isDoc).length := by
  induction rs with
  | nil => rfl
  | cons r rs ih =>
    cases r <;>
      simp [List.filterMap_cons, List.filter_cons, regDocSet, Reg.isDoc, ih]

theorem wrap_of_obsEq {a b : ExternHandler} (h : a.obsEq b) :
    a.handler.map (fun f => wrap_handler f a.user_data) =
      b.handler.map (fun f => wrap_handler f b.user_data) := by
  obtain ⟨h1, h2⟩ := h
  rw [← h1]
  cases ha : a.handler with
  | none => rfl
  | some f =>
    have hu : a.user_data = b.user_data := h2 (by rw [ha]; rfl)
    rw [hu]

theorem docHandlers_ext (x y : DocumentContentHandlers)
    (h1 : x.doctype = y.doctype) (h2 : x.comments = y.comments)
    (h3 : x.text = y.text) : x = y := by
  cases x; cases y; simp_all

theorem elemHandlers_ext (x y : ElementContentHandlers)
    (h1 : x.element = y.element) (h2 : x.comments = y.comments)
    (h3 : x.text = y.text) : x = y := by
  cases x; cases y; simp_all

theorem as_safe_doc_of_obsEq {d1 d2 : ExternDocumentContentHandlers}
    (hd : d1.doctype.obsEq d2.doctype) (hc : d1.comments.obsEq d2.comments)
    (ht : d1.text.obsEq d2.text) :
    d1.as_safe_document_content_handlers = d2.as_safe_document_content_handlers := by
  apply docHandlers_ext
  · rw [as_safe_doc_doctype, as_safe_doc_doctype]; exact wrap_of_obsEq hd
  · rw [as_safe_doc_comments, as_safe_doc_comments]; exact wrap_of_obsEq hc
  · rw [as_safe_doc_text, as_safe_doc_text]; exact wrap_of_obsEq ht

theorem as_safe_elem_of_obsEq {e1 e2 : ExternElementContentHandlers}
    (he : e1.element.obsEq e2.element) (hc : e1.comments.obsEq e2.comments)
    (ht : e1.text.obsEq e2.text) :
    e1.as_safe_element_content_handlers = e2.as_safe_element_content_handlers := by
  apply elemHandlers_ext
  · rw [as_safe_elem_element, as_safe_elem_element]; exact wrap_of_obsEq he
  · rw [as_safe_elem_comments, as_safe_elem_comments]; exact wrap_of_obsEq hc
  · rw [as_safe_elem_text, as_safe_elem_text]; exact wrap_of_obsEq ht

theorem regDocSet_of_obsEq {r1 r2 : Reg} (h : r1.obsEq r2) :
    (regDocSet r1).map (fun d => d.as_safe_document_content_handlers) =
      (regDocSet r2).map (fun d => d.as_safe_document_content_handlers) := by
  cases r1 with
  | doc dh1 du1 ch1 cu1 th1 tu1 =>
    cases r2 with
    | doc dh2 du2 ch2 cu2 th2 tu2 =>
      simp only [regDocSet, Option.map_some', Option.some.injEq]
      exact as_safe_doc_of_obsEq h.1 h.2.1 h.2.2
    | elem _ _ _ _ _ _ _ => cases h
  | elem buf1 eh1 eu1 ch1 cu1 th1 tu1 =>
    cases r2 with
    | doc _ _ _ _ _ _ => cases h
    | elem _ _ _ _ _ _ _ => rfl

theorem regElemEntry_of_obsEq {r1 r2 : Reg} (h : r1.obsEq r2) :
    (regElemEntry r1).map
        (fun p => (p.1, p.2.as_safe_element_content_handlers)) =
      (regElemEntry r2).map
        (fun p => (p.1, p.2.as_safe_element_content_handlers)) := by
  cases r1 with
  | doc dh1 du1 ch1 cu1 th1 tu1 =>
    cases r2 with
    | doc _ _ _ _ _ _ => rfl
    | elem _ _ _ _ _ _ _ => cases h
  | elem buf1 eh1 eu1 ch1 cu1 th1 tu1 =>
    cases r2 with
    | doc _ _ _ _ _ _ => cases h
    | elem buf2 eh2 eu2 ch2 cu2 th2 tu2 =>
      have hbuf : buf1 = buf2 := h.1
      subst hbuf
      simp only [regElemEntry]
      cases hps : (to_str buf1).bind Selector.parse with
      | none => rfl
      | some sel =>
        simp only [Option.map_some', Option.some.injEq, Prod.mk.injEq]
        exact ⟨trivial, as_safe_elem_of_obsEq h.2.1 h.2.2.1 h.2.2.2⟩

theorem filterMap_congr_forall2 {α β : Type} {R : α → α → Prop}
    {f g : α → Option β} (h : ∀ a b, R a b → f a = g b) :
    ∀ {l1 l2 : List α}, List.Forall₂ R l1 l2 →
      l1.filterMap f = l2.filterMap g := by
  intro l1 l2 hf
  induction hf with
  | nil => rfl
  | cons hab _ ih =>
    rw [List.filterMap_cons, List.filterMap_cons, h _ _ hab, ih]

/-- C1: for every call to
`cool_thing_rewriter_builder_add_element_content_handlers`, if the
selector byte buffer decodes (`to_str`) and parses (`Selector.parse`) to
a selector, the call returns status 0 and appends exactly the one
(Selector, Element Handler Set) pair built from the call's arguments to
the builder's element sequence, leaving the document sequence alone; if
decoding or parsing fails, the call returns a nonzero status and the
builder is left entirely unchanged. -/
theorem C1_element_registration_status_and_append
    (b : HtmlRewriterBuilder) (buf : List Nat)
    (eh : Option FnPtr) (eu : UserData) (ch : Option FnPtr) (cu : UserData)
    (th : Option FnPtr) (tu : UserData) :
    (∀ sel, (to_str buf).bind Selector.parse = some sel →
      (cool_thing_rewriter_builder_add_element_content_handlers
          b buf eh eu ch cu th tu).1 = 0 ∧
      (cool_thing_rewriter_builder_add_element_content_handlers
          b buf eh eu ch cu th tu).2.element_content_handlers =
        b.element_content_handlers ++
          [(sel, { element := ExternHandler.new eh eu
                   comments := ExternHandler.new ch cu
                   text := ExternHandler.new th tu })] ∧
      (cool_thing_rewriter_builder_add_element_content_handlers
          b buf eh eu ch cu th tu).2.document_content_handlers =
        b.document_content_handlers) ∧
    ((to_str buf).bind Selector.parse = none →
      (cool_thing_rewriter_builder_add_element_content_handlers
          b buf eh eu ch cu th tu).1 ≠ 0 ∧
      (cool_thing_rewriter_builder_add_element_content_handlers
          b buf eh eu ch cu th tu).2 = b) := by
  have hr := add_element_spec b buf eh eu ch cu th tu
  constructor
  · intro sel hsel
    rw [hsel] at hr
    rw [hr]
    exact ⟨rfl, rfl, rfl⟩
  · intro hnone
    rw [hnone] at hr
    have hr2 : cool_thing_rewriter_builder_add_element_content_handlers
        b buf eh eu ch cu th tu = (-1, b) := hr
    rw [hr2]
    exact ⟨by show (-1 : Int) ≠ 0; decide, rfl⟩

/-- Witness for C1 at concrete inputs: the valid one-byte selector
buffer `[97]` (the text `"a"`) makes the registration succeed with
status 0 and append exactly one pair to the fresh builder. -/
theorem C1_element_registration_status_and_append_witness :
    (cool_thing_rewriter_builder_add_element_content_handlers
        cool_thing_rewriter_builder_new [97] (some 1) 2 none 3 none 4).1 = 0 ∧
    (cool_thing_rewriter_builder_add_element_content_handlers
        cool_thing_rewriter_builder_new [97] (some 1) 2 none 3 none 4).2.element_content_handlers =
      cool_thing_rewriter_builder_new.element_content_handlers ++
        [({ source := "a" }, { element := ExternHandler.new (some 1) 2
                               comments := ExternHandler.new none 3
                               text := ExternHandler.new none 4 })] ∧
    (cool_thing_rewriter_builder_add_element_content_handlers
        cool_thing_rewriter_builder_new [97] (some 1) 2 none 3 none 4).2.document_content_handlers =
      cool_thing_rewriter_builder_new.document_content_handlers :=
  (C1_element_registration_status_and_append
      cool_thing_rewriter_builder_new [97] (some 1) 2 none 3 none 4).1
    { source := "a" } (by decide)

/-- C2: finalizing the builder produced by any sequence of registration
calls yields a Safe Handler Collection whose document sequence is the
adapted image of exactly the document-handler registration calls, one
bundle per call in call order, and whose element sequence lists the
(selector, bundle) pairs of the successful element registrations in
registration order, with no deduplication or reordering of selectors
(duplicate selectors yield independent, order-preserved entries, since
the sequence is exactly the order-preserving `filterMap` image of the
call list). -/
theorem C2_finalized_sequences_follow_call_order (rs : List Reg) :
    (applyRegs cool_thing_rewriter_builder_new rs).get_safe_handlers.document =
      (rs.filterMap regDocSet).map
        (fun d => d.as_safe_document_content_handlers) ∧
    (applyRegs cool_thing_rewriter_builder_new rs).get_safe_handlers.document.length =
      (rs.filter Reg.isDoc).length ∧
    (applyRegs cool_thing_rewriter_builder_new rs).get_safe_handlers.element =
      (rs.filterMap regElemEntry).map
        (fun p => (p.1, p.2.as_safe_element_content_handlers)) ∧
    (applyRegs cool_thing_rewriter_builder_new rs).get_safe_handlers.element.map
        Prod.fst =
      (rs.filterMap regElemEntry).map Prod.fst := by
  have hs := applyRegs_state cool_thing_rewriter_builder_new rs
  have hdoc :
      (applyRegs cool_thing_rewriter_builder_new rs).get_safe_handlers.document =
        (rs.filterMap regDocSet).map
          (fun d => d.as_safe_document_content_handlers) := by
    rw [HtmlRewriterBuilder.get_safe_handlers]
    rw [hs.1]
    rfl
  have helem :
      (applyRegs cool_thing_rewriter_builder_new rs).get_safe_handlers.element =
        (rs.filterMap regElemEntry).map
          (fun p => (p.1, p.2.as_safe_element_content_handlers)) := by
    rw [HtmlRewriterBuilder.get_safe_handlers]
    rw [hs.2]
    rfl
  refine ⟨hdoc, ?_, helem, ?_⟩
  · rw [hdoc, List.length_map, filterMap_length_isDoc]
  · rw [helem, List.map_map]
    rfl

/-- C3: a Foreign Handler Slot whose function pointer is absent produces
no closure for its event kind in the adapted bundle, and invoking that
bundle slot is a no-op (the event object is untouched and no foreign
function is ever called); this holds independently for each of the three
slots of a document set and each of the three slots of an element set. -/
theorem C3_absent_slot_gives_noop
    (d : ExternDocumentContentHandlers) (e : ExternElementContentHandlers)
    (ffi : FnPtr → Nat → UserData → Nat) (ev : Nat) :
    (d.doctype.handler = none →
      d.as_safe_document_content_handlers.doctype = none ∧
      invokeSlot ffi d.as_safe_document_content_handlers.doctype ev = (ev, [])) ∧
    (d.comments.handler = none →
      d.as_safe_document_content_handlers.comments = none ∧
      invokeSlot ffi d.as_safe_document_content_handlers.comments ev = (ev, [])) ∧
    (d.text.handler = none →
      d.as_safe_document_content_handlers.text = none ∧
      invokeSlot ffi d.as_safe_document_content_handlers.text ev = (ev, [])) ∧
    (e.element.handler = none →
      e.as_safe_element_content_handlers.element = none ∧
      invokeSlot ffi e.as_safe_element_content_handlers.element ev = (ev, [])) ∧
    (e.comments.handler = none →
      e.as_safe_element_content_handlers.comments = none ∧
      invokeSlot ffi e.as_safe_element_content_handlers.comments ev = (ev, [])) ∧
    (e.text.handler = none →
      e.as_safe_element_content_handlers.text = none ∧
      invokeSlot ffi e.as_safe_element_content_handlers.text ev = (ev, [])) := by
  refine ⟨fun h => ?_, fun h => ?_, fun h => ?_, fun h => ?_, fun h => ?_,
    fun h => ?_⟩
  · have hp : d.as_safe_document_content_handlers.doctype = none := by
      rw [as_safe_doc_doctype, h]; rfl
    exact ⟨hp, by rw [hp]; rfl⟩
  · have hp : d.as_safe_document_content_handlers.comments = none := by
      rw [as_safe_doc_comments, h]; rfl
    exact ⟨hp, by rw [hp]; rfl⟩
  · have hp : d.as_safe_document_content_handlers.text = none := by
      rw [as_safe_doc_text, h]; rfl
    exact ⟨hp, by rw [hp]; rfl⟩
  · have hp : e.as_safe_element_content_handlers.element = none := by
      rw [as_safe_elem_element, h]; rfl
    exact ⟨hp, by rw [hp]; rfl⟩
  · have hp : e.as_safe_element_content_handlers.comments = none := by
      rw [as_safe_elem_comments, h]; rfl
    exact ⟨hp, by rw [hp]; rfl⟩
  · have hp : e.as_safe_element_content_handlers.text = none := by
      rw [as_safe_elem_text, h]; rfl
    exact ⟨hp, by rw [hp]; rfl⟩

/-- Witness for C3 at a concrete input: a document set registering only a
text handler (function 5) yields a bundle whose doctype slot is empty and
whose doctype invocation leaves event-object state 3 unchanged with an
empty foreign-call trace. -/
theorem C3_absent_slot_gives_noop_witness :
    ({ doctype := ExternHandler.new none 7
       comments := ExternHandler.new none 8
       text := ExternHandler.new (some 5) 9 } :
        ExternDocumentContentHandlers).as_safe_document_content_handlers.doctype =
      none ∧
    invokeSlot (fun f ev u => ev + f + u)
      ({ doctype := ExternHandler.new none 7
         comments := ExternHandler.new none 8
         text := ExternHandler.new (some 5) 9 } :
          ExternDocumentContentHandlers).as_safe_document_content_handlers.doctype
      3 = (3, []) :=
  (C3_absent_slot_gives_noop
      { doctype := ExternHandler.new none 7
        comments := ExternHandler.new none 8
        text := ExternHandler.new (some 5) 9 }
      { element := ExternHandler.new none 1
        comments := ExternHandler.new none 2
        text := ExternHandler.new none 3 }
      (fun f ev u => ev + f + u) 3).1 rfl

/-- C4: the closure that the adaptation layer produces from a present
slot (always of the form `wrap_handler f u`, by `C9`-style projection)
when invoked on any event-object state calls exactly the captured
function pointer `f` with that event object and the bound context
pointer `u`, and hands the foreign function's result back unchanged
together with that single-call trace; the statement holds uniformly in
the event state `ev` and the foreign environment `ffi`, so the closure
interprets nothing of the event object itself. (The extern callbacks of
this C API return no value, so the forwarded result is the foreign
function's entire observable outcome — its mutation of the event
object.) -/
theorem C4_wrapped_closure_forwards_call
    (f : FnPtr) (u : UserData) (ffi : FnPtr → Nat → UserData → Nat)
    (ev : Nat) :
    invokeSlot ffi (some (wrap_handler f u)) ev =
      (ffi f ev u, [{ fn := f, arg := ev, user_data := u }]) := rfl

/-- C5: finalization is idempotent and non-consuming: it leaves the
builder state unchanged (so the builder remains usable), a second
finalization of the unmutated builder yields an equal collection, and
the two collections' bundles behave identically under every foreign
environment on every event-object state. -/
theorem C5_finalize_idempotent_nonconsuming (b : HtmlRewriterBuilder) :
    (builder_finalize b).2 = b ∧
    (builder_finalize (builder_finalize b).2).1 = (builder_finalize b).1 ∧
    ∀ ffi ev,
      ((builder_finalize b).1.document.map
          (fun h => docBundleBehavior ffi h ev) =
        (builder_finalize (builder_finalize b).2).1.document.map
          (fun h => docBundleBehavior ffi h ev)) ∧
      ((builder_finalize b).1.element.map
          (fun p => (p.1, elemBundleBehavior ffi p.2 ev)) =
        (builder_finalize (builder_finalize b).2).1.element.map
          (fun p => (p.1, elemBundleBehavior ffi p.2 ev))) :=
  ⟨rfl, rfl, fun _ _ => ⟨rfl, rfl⟩⟩

/-- C6: every call to
`cool_thing_rewriter_builder_add_document_content_handlers`, for any
subset of present (function pointer, context pointer) pairs, appends
exactly the one Document Handler Set built from its arguments to the
builder's document sequence and leaves the element sequence unchanged;
the operation is total (no failure status exists, matching the `void`
return of the C function). -/
theorem C6_add_document_always_appends_one
    (b : HtmlRewriterBuilder)
    (dh : Option FnPtr) (du : UserData) (ch : Option FnPtr) (cu : UserData)
    (th : Option FnPtr) (tu : UserData) :
    (cool_thing_rewriter_builder_add_document_content_handlers
        b dh du ch cu th tu).document_content_handlers =
      b.document_content_handlers ++
        [{ doctype := ExternHandler.new dh du
           comments := ExternHandler.new ch cu
           text := ExternHandler.new th tu }] ∧
    (cool_thing_rewriter_builder_add_document_content_handlers
        b dh du ch cu th tu).element_content_handlers =
      b.element_content_handlers := ⟨rfl, rfl⟩

/-- C7: element-scoped registration fails (nonzero status) exactly when
the selector byte buffer does not decode as text in the fixed encoding
or the decoded text does not parse under the selector grammar; and a
failing call performs no state change at all — the builder is unchanged,
so in particular a later finalization sees exactly the state from before
the failing call (the validation is synchronous in the registration
call, never deferred to finalization). -/
theorem C7_malformed_selector_synchronous
    (b : HtmlRewriterBuilder) (buf : List Nat)
    (eh : Option FnPtr) (eu : UserData) (ch : Option FnPtr) (cu : UserData)
    (th : Option FnPtr) (tu : UserData) :
    ((cool_thing_rewriter_builder_add_element_content_handlers
        b buf eh eu ch cu th tu).1 ≠ 0 ↔
      (to_str buf = none ∨
        ∃ s, to_str buf = some s ∧ Selector.parse s = none)) ∧
    ((cool_thing_rewriter_builder_add_element_content_handlers
        b buf eh eu ch cu th tu).1 ≠ 0 →
      (cool_thing_rewriter_builder_add_element_content_handlers
          b buf eh eu ch cu th tu).2 = b ∧
      (cool_thing_rewriter_builder_add_element_content_handlers
          b buf eh eu ch cu th tu).2.get_safe_handlers =
        b.get_safe_handlers) := by
  have hr := add_element_spec b buf eh eu ch cu th tu
  cases hs : to_str buf with
  | none =>
    rw [hs] at hr
    have hr2 : cool_thing_rewriter_builder_add_element_content_handlers
        b buf eh eu ch cu th tu = (-1, b) := hr
    rw [hr2]
    constructor
    · exact ⟨fun _ => Or.inl rfl, fun _ => by show (-1 : Int) ≠ 0; decide⟩
    · intro _
      exact ⟨rfl, rfl⟩
  | some s =>
    rw [hs] at hr
    cases hp : Selector.parse s with
    | none =>
      rw [show (some s).bind Selector.parse = none by simp [hp]] at hr
      have hr2 : cool_thing_rewriter_builder_add_element_content_handlers
          b buf eh eu ch cu th tu = (-1, b) := hr
      rw [hr2]
      constructor
      · exact ⟨fun _ => Or.inr ⟨s, rfl, hp⟩,
          fun _ => by show (-1 : Int) ≠ 0; decide⟩
      · intro _
        exact ⟨rfl, rfl⟩
    | some sel =>
      rw [show (some s).bind Selector.parse = some sel by simp [hp]] at hr
      have hr2 : cool_thing_rewriter_builder_add_element_content_handlers
          b buf eh eu ch cu th tu =
          (0, { b with
                  element_content_handlers :=
                    b.element_content_handlers ++
                      [(sel, { element := ExternHandler.new eh eu
                               comments := ExternHandler.new ch cu
                               text := ExternHandler.new th tu })] }) := hr
      rw [hr2]
      constructor
      · constructor
        · intro h0
          exact absurd rfl h0
        · rintro (hn | ⟨s2, hs2, hp2⟩)
          · cases hn
          · injection hs2 with he
            subst he
            rw [hp] at hp2
            cases hp2
      · intro h0
        exact absurd rfl h0

/-- Witness for C7 at a concrete input: registering with the invalid
one-byte selector buffer `[91]` (the text `"["`) gives a nonzero status,
and the second conjunct at this input shows the builder and its
finalization are exactly those from before the call. -/
theorem C7_malformed_selector_synchronous_witness :
    (cool_thing_rewriter_builder_add_element_content_handlers
        cool_thing_rewriter_builder_new [91] (some 1) 2 none 3 none 4).2 =
      cool_thing_rewriter_builder_new ∧
    (cool_thing_rewriter_builder_add_element_content_handlers
        cool_thing_rewriter_builder_new [91] (some 1) 2 none 3 none 4).2.get_safe_handlers =
      cool_thing_rewriter_builder_new.get_safe_handlers :=
  (C7_malformed_selector_synchronous
      cool_thing_rewriter_builder_new [91] (some 1) 2 none 3 none 4).2
    (by decide)

/-- C8: builder creation returns a builder whose document and element
sequences are both empty (and is total, matching the never-failing C
constructor), and finalizing the freshly created builder yields a Safe
Handler Collection with empty document and element sequences. -/
theorem C8_new_builder_empty :
    cool_thing_rewriter_builder_new.document_content_handlers = [] ∧
    cool_thing_rewriter_builder_new.element_content_handlers = [] ∧
    cool_thing_rewriter_builder_new.get_safe_handlers.document = [] ∧
    cool_thing_rewriter_builder_new.get_safe_handlers.element = [] :=
  ⟨rfl, rfl, rfl, rfl⟩

/-- C9: per-slot binding — in every adapted handler set, the closure of
each event kind is present exactly when that kind's function pointer is,
and it is `wrap_handler` of that same slot's function pointer and that
same slot's context pointer; context pointers of other slots or other
registration calls (which build separate extern sets) never enter. -/
theorem C9_per_slot_context_binding
    (d : ExternDocumentContentHandlers) (e : ExternElementContentHandlers) :
    d.as_safe_document_content_handlers.doctype =
      d.doctype.handler.map (fun f => wrap_handler f d.doctype.user_data) ∧
    d.as_safe_document_content_handlers.comments =
      d.comments.handler.map (fun f => wrap_handler f d.comments.user_data) ∧
    d.as_safe_document_content_handlers.text =
      d.text.handler.map (fun f => wrap_handler f d.text.user_data) ∧
    e.as_safe_element_content_handlers.element =
      e.element.handler.map (fun f => wrap_handler f e.element.user_data) ∧
    e.as_safe_element_content_handlers.comments =
      e.comments.handler.map (fun f => wrap_handler f e.comments.user_data) ∧
    e.as_safe_element_content_handlers.text =
      e.text.handler.map (fun f => wrap_handler f e.text.user_data) :=
  ⟨as_safe_doc_doctype d, as_safe_doc_comments d, as_safe_doc_text d,
    as_safe_elem_element e, as_safe_elem_comments e, as_safe_elem_text e⟩

/-- C10: noninterference of absent-slot context pointers — any two
registration-call sequences that agree on everything except the context
pointers supplied alongside absent function pointers produce equal Safe
Handler Collections, so those context pointers (stored in the builder's
extern sets) are never captured by any closure and can never be
forwarded to any foreign function. -/
theorem C10_absent_slot_context_noninterference (rs1 rs2 : List Reg)
    (h : List.Forall₂ Reg.obsEq rs1 rs2) :
    (applyRegs cool_thing_rewriter_builder_new rs1).get_safe_handlers =
      (applyRegs cool_thing_rewriter_builder_new rs2).get_safe_handlers := by
  have h1 := applyRegs_state cool_thing_rewriter_builder_new rs1
  have h2 := applyRegs_state cool_thing_rewriter_builder_new rs2
  have hdoc := filterMap_congr_forall2
    (fun a b hab => regDocSet_of_obsEq hab) h
  have helem := filterMap_congr_forall2
    (fun a b hab => regElemEntry_of_obsEq hab) h
  rw [HtmlRewriterBuilder.get_safe_handlers, HtmlRewriterBuilder.get_safe_handlers,
    h1.1, h1.2, h2.1, h2.2]
  simp only [List.map_append, List.map_filterMap]
  rw [hdoc, helem]

/-- Witness for C10 at concrete inputs: two one-call sequences that
differ only in the context pointers accompanying absent doctype and text
function pointers (11, 13 versus 99, 88) finalize to equal collections. -/
theorem C10_absent_slot_context_noninterference_witness :
    (applyRegs cool_thing_rewriter_builder_new
        [Reg.doc none 11 (some 5) 12 none 13]).get_safe_handlers =
      (applyRegs cool_thing_rewriter_builder_new
        [Reg.doc none 99 (some 5) 12 none 88]).get_safe_handlers := by
  refine C10_absent_slot_context_noninterference _ _
    (List.Forall₂.cons ⟨⟨rfl, ?_⟩, ⟨rfl, fun _ => rfl⟩, ⟨rfl, ?_⟩⟩
      List.Forall₂.nil)
  · intro hc
    exact absurd hc (by decide)
  · intro hc
    exact absurd hc (by decide)
